import Mathlib

/-!
Verification of the two scripts of this repository against their
natural-language specification.

* `Score` embeds `score_sample.py`: the batch scorer that reads CSV
  files, applies a loaded model, and writes one combined output file.
* `Register` embeds `register_assets_sample.py`: the asset registrar
  that registers environments/components, submits a training pipeline,
  registers the model and publishes a batch endpoint/deployment.

Filesystem, pandas and the remote ML platform are modelled as explicit
oracles (`ScorerEnv`, `World`); remote calls made by the registrar are
recorded in an explicit trace of `Call` events, in program order.
-/

/-- `suffix.data.isSuffixOf s.data`: Python `str.endswith`, case-sensitive,
on the underlying character lists (used instead of `String.endsWith` so
that it reduces in the kernel). -/
def strEndsWith (s sfx : String) : Bool :=
  sfx.data.isSuffixOf s.data

/-- Python `str.lower`, mapped over the character list. -/
def strToLower (s : String) : String :=
  ⟨s.data.map Char.toLower⟩

/-- Substring check on character lists: `containsSub pat cs` is true iff
`pat` occurs contiguously inside `cs`. -/
def containsSub (pat : List Char) : List Char → Bool
  | [] => pat.isEmpty
  | c :: tl => pat.isPrefixOf (c :: tl) || containsSub pat tl

/-- Python `pat in s` for strings. -/
def strContains (s pat : String) : Bool :=
  containsSub pat.data s.data

namespace Score

/-- In-memory table: `pd.read_csv` output. Cell payloads are opaque to the
scorer, so they are modelled as integers. -/
structure DataFrame where
  cols : List String
  rows : List (List Int)
deriving DecidableEq, Repr

/-- `df[name] = vals` in pandas: overwrite the column in place when the
name is already present, otherwise append a new column on the right.
Row/value pairing is positional. -/
def setColumn (df : DataFrame) (name : String) (vals : List Int) : DataFrame :=
  if name ∈ df.cols then
    { cols := df.cols
      rows := (df.rows.zip vals).map (fun rv => rv.1.set (df.cols.indexOf name) rv.2) }
  else
    { cols := df.cols ++ [name]
      rows := (df.rows.zip vals).map (fun rv => rv.1 ++ [rv.2]) }

/-- `pd.concat(results, ignore_index=True)`: rows concatenated in list
order. All frames produced by the scorer share one schema (the same
`read_csv` columns plus the prediction column), so column alignment
across differing schemas is not modelled; the result keeps the first
frame's columns. -/
def concatFrames (dfs : List DataFrame) : DataFrame :=
  { cols := ((dfs.head?).map DataFrame.cols).getD []
    rows := (dfs.map DataFrame.rows).flatten }

/-- Oracle for the scorer's environment: the filesystem view of
`input_data` and the behaviour of `mlflow.sklearn.load_model` /
`pd.read_csv`. `loadModel mp df` is the prediction vector of the model
loaded from `mp` applied to `df`. -/
structure ScorerEnv where
  is_directory : Bool
  listing : List String
  loadModel : String → DataFrame → List Int
  readCsv : String → DataFrame

/-- `os.path.join` for the two-argument uses in the script. -/
def joinPath (a b : String) : String :=
  a ++ "/" ++ b

/-- The file-selection logic of `main` (`score_sample.py` lines 29-32):
a directory is filtered (non-recursively) to names ending in `.csv`,
joined back onto the directory path; anything else is taken as the single
input file, whatever its extension. -/
def inputFiles (env : ScorerEnv) (input_data : String) : List String :=
  if env.is_directory then
    (env.listing.filter (fun f => strEndsWith f ".csv")).map (joinPath input_data)
  else [input_data]

/-- Observable outcome of one scorer run: files processed in order,
directories created via `os.makedirs`, files written via `to_csv`, and
whether the no-results warning was printed. -/
structure ScorerOutcome where
  processed : List String
  madeDirs : List String
  outputFiles : List (String × DataFrame)
  warnedNoResults : Bool
deriving DecidableEq, Repr

/-- Per-file body of the processing loop (`score_sample.py` lines 36-46):
read the CSV, predict, attach the predictions as column `prediction`. -/
def scoreFile (env : ScorerEnv) (model_path file : String) : DataFrame :=
  let df := env.readCsv file
  setColumn df "prediction" (env.loadModel model_path df)

/-- The combined frame the scorer would write: all per-file results
concatenated in input order. -/
def scoredOutput (env : ScorerEnv) (input_data model_path : String) : DataFrame :=
  concatFrames ((inputFiles env input_data).map (scoreFile env model_path))

/-- `main` of `score_sample.py`: select input files, score each, and if
any results exist create the output directory and write the single
combined file `scored_results.csv` inside it; otherwise warn and write
nothing. -/
def scorerMain (env : ScorerEnv) (input_data output_data model_path : String) :
    ScorerOutcome :=
  let files := inputFiles env input_data
  let results := files.map (scoreFile env model_path)
  if results.isEmpty then
    { processed := files, madeDirs := [], outputFiles := [], warnedNoResults := true }
  else
    { processed := files
      madeDirs := [output_data]
      outputFiles := [(joinPath output_data "scored_results.csv", concatFrames results)]
      warnedNoResults := false }

end Score

/-- Equality of fallible results is decidable when it is on both sides. -/
instance {e a : Type} [DecidableEq e] [DecidableEq a] : DecidableEq (Except e a) := fun x y =>
  match x, y with
  | Except.ok v, Except.ok w =>
    if h : v = w then Decidable.isTrue (congrArg Except.ok h)
    else Decidable.isFalse (fun hc => h (Except.ok.inj hc))
  | Except.error v, Except.error w =>
    if h : v = w then Decidable.isTrue (congrArg Except.error h)
    else Decidable.isFalse (fun hc => h (Except.error.inj hc))
  | Except.ok _, Except.error _ => Decidable.isFalse (fun hc => Except.noConfusion hc)
  | Except.error _, Except.ok _ => Decidable.isFalse (fun hc => Except.noConfusion hc)

namespace Register

/-- Python exceptions that the registrar's own code can raise: `KeyError`
from a missing configuration key, `IndexError` from `child_jobs[0]`. -/
inductive PyError where
  | keyError (key : String)
  | indexError
deriving DecidableEq, Repr

/-- `azure.ai.ml.entities.Environment` as constructed by
`register_environment` (name, description, Dockerfile of the build
context), plus the platform-assigned version. -/
structure EnvEntity where
  name : String
  description : String
  build_dockerfile : String
  version : String
deriving DecidableEq, Repr

/-- A component as loaded by `load_component` or returned by the
platform: the registrar only ever reads its name and version. -/
structure ComponentEntity where
  name : String
  version : String
deriving DecidableEq, Repr

/-- A child job as returned by `ml_client.jobs.list(parent_job_name=...)`:
the registrar reads only `name` and `display_name`. -/
structure JobInfo where
  name : String
  display_name : String
deriving DecidableEq, Repr

/-- One remote/observable call of `register_assets_sample.py`, recorded
in program order. `printTrainingFailed` records the failure message of
the early-return branch. -/
inductive Call where
  | envGet (name label : String)
  | envCreate (name : String)
  | compGet (name version : String)
  | compCreate (name version : String)
  | dataGet (name label : String)
  | jobCreate (pipelineName : String)
  | jobStream
  | jobsList
  | modelCreate (path name : String)
  | printTrainingFailed (status : String)
  | endpointGet (name : String)
  | endpointCreate (name : String)
  | pipelineComponentCreate
  | deploymentCreate (name endpointName : String)
  | endpointUpdate (name : String)
deriving DecidableEq, Repr

/-- Trace-building, exception-raising computation: the effect type in
which the registrar is embedded. A step extends the trace accumulated so
far and either returns a value or raises a `PyError`. -/
def M (α : Type) : Type :=
  List Call → List Call × Except PyError α

/-- Return without touching the trace. -/
def M.pure {α : Type} (a : α) : M α :=
  fun t => (t, Except.ok a)

/-- Sequencing: a raised error short-circuits, keeping the trace made so
far. -/
def M.bind {α β : Type} (x : M α) (f : α → M β) : M β :=
  fun t =>
    match x t with
    | (t2, Except.ok a) => f a t2
    | (t2, Except.error e) => (t2, Except.error e)

/-- Record one call. -/
def emit (c : Call) : M Unit :=
  fun t => (t ++ [c], Except.ok ())

/-- Run an already-computed fallible result inside `M`. -/
def liftExcept {α : Type} : Except PyError α → M α
  | Except.ok a => M.pure a
  | Except.error e => fun t => (t, Except.error e)

/-- Oracle for the remote platform and the local YAML files: whether each
`get` succeeds, what it returns, and the training job's observed state. -/
structure World where
  envGetOk : Bool
  envGot : EnvEntity
  envCreated : EnvEntity → EnvEntity
  loadComponent : String → ComponentEntity
  compGetOk : String → String → Bool
  compGot : String → String → ComponentEntity
  compCreated : ComponentEntity → ComponentEntity
  dataId : String
  jobStatus : String
  childJobs : List JobInfo
  endpointGetOk : Bool

/-- The parsed `config.json` object: a partial mapping from key to
value. Accessing a missing key raises `KeyError` (Python dict lookup). -/
def Config : Type :=
  String → Option String

/-- `config[k]`: the value, or a raised `KeyError k`. -/
def getKeyM (cfg : Config) (k : String) : M String :=
  fun t =>
    match cfg k with
    | some v => (t, Except.ok v)
    | none => (t, Except.error (PyError.keyError k))

/-- `get_ml_client` (`register_assets_sample.py` lines 16-23): reads the
three workspace keys, in keyword order, and builds the client handle. No
remote call is made by construction itself. -/
def get_ml_client (cfg : Config) : M (String × String × String) :=
  M.bind (getKeyM cfg "subscription_id") fun sub =>
  M.bind (getKeyM cfg "resource_group") fun rg =>
  M.bind (getKeyM cfg "workspace_name") fun ws =>
  M.pure (sub, rg, ws)

/-- `register_environment` (lines 26-38): try the remote `get` by
name/label; on any exception build an `Environment` and
`create_or_update` it. -/
def register_environment (w : World) (name dockerfile_path : String) : M EnvEntity :=
  M.bind (emit (Call.envGet name "latest")) fun _ =>
  if w.envGetOk then
    M.pure w.envGot
  else
    M.bind (emit (Call.envCreate name)) fun _ =>
    M.pure (w.envCreated
      { name := name
        description := "Environment for " ++ name
        build_dockerfile := dockerfile_path
        version := "" })

/-- `register_component` (lines 41-49): load the local YAML, try the
remote `get` by (name, version); on any exception `create_or_update`. -/
def register_component (w : World) (yaml_path : String) : M ComponentEntity :=
  let component := w.loadComponent yaml_path
  M.bind (emit (Call.compGet component.name component.version)) fun _ =>
  if w.compGetOk component.name component.version then
    M.pure (w.compGot component.name component.version)
  else
    M.bind (emit (Call.compCreate component.name component.version)) fun _ =>
    M.pure (w.compCreated component)

/-- The selection predicate of line 96:
`"train_job" in j.display_name.lower()`. -/
def matchesTrainJob (j : JobInfo) : Bool :=
  strContains (strToLower j.display_name) "train_job"

/-- Line 96: `next((j for j in child_jobs if "train_job" in
j.display_name.lower()), child_jobs[0])`. Python evaluates the default
argument `child_jobs[0]` eagerly, so an empty list raises `IndexError`
before the generator is consulted; otherwise the first match is taken,
falling back to the first child job. -/
def selectChild : List JobInfo → Except PyError JobInfo
  | [] => Except.error PyError.indexError
  | j0 :: tl => Except.ok (((j0 :: tl).find? matchesTrainJob).getD j0)

/-- Line 99: the model path built from the selected child job's name. -/
def modelPathOf (jobName : String) : String :=
  "azureml://jobs/" ++ jobName ++ "/outputs/artifacts/paths/model/"

/-- `main` of `register_assets_sample.py` (lines 52-139): configuration
access, asset registration, pipeline submission and wait, model
registration, endpoint/deployment publication — in source order, with
every remote call recorded. -/
def main (cfg : Config) (w : World) : M Unit :=
  M.bind (get_ml_client cfg) fun _ =>
  M.bind (getKeyM cfg "cluster") fun _ =>
  M.bind (getKeyM cfg "experiment") fun experiment =>
  M.bind (register_environment w "iGuard-env" "Dockerfile") fun _ =>
  M.bind (register_component w "train.yaml") fun _ =>
  M.bind (register_component w "score.yaml") fun _ =>
  M.bind (getKeyM cfg "datasource_name") fun ds =>
  M.bind (emit (Call.dataGet ds "latest")) fun _ =>
  M.bind (emit (Call.jobCreate (experiment ++ "_training"))) fun _ =>
  M.bind (emit Call.jobStream) fun _ =>
  if w.jobStatus ≠ "Completed" then
    M.bind (emit (Call.printTrainingFailed w.jobStatus)) fun _ =>
    M.pure ()
  else
    M.bind (emit Call.jobsList) fun _ =>
    M.bind (liftExcept (selectChild w.childJobs)) fun train_job =>
    M.bind (emit (Call.modelCreate (modelPathOf train_job.name) (experiment ++ "-model"))) fun _ =>
    M.bind (emit (Call.endpointGet (experiment ++ "-endpoint"))) fun _ =>
    M.bind (if w.endpointGetOk then
        M.pure ()
      else
        M.bind (emit (Call.endpointCreate (experiment ++ "-endpoint"))) fun _ =>
        M.pure ()) fun _ =>
    M.bind (emit Call.pipelineComponentCreate) fun _ =>
    M.bind (emit (Call.deploymentCreate (experiment ++ "-deployment") (experiment ++ "-endpoint"))) fun _ =>
    M.bind (emit (Call.endpointGet (experiment ++ "-endpoint"))) fun _ =>
    M.bind (emit (Call.endpointUpdate (experiment ++ "-endpoint"))) fun _ =>
    M.pure ()

/-- Calls that create a resource during the get-or-create helpers. -/
def isCreateCall : Call → Bool
  | Call.envCreate _ => true
  | Call.compCreate _ _ => true
  | _ => false

/-- Calls belonging to model registration or endpoint/deployment
publication: everything after the training-status check. -/
def isModelOrDeployCall : Call → Bool
  | Call.modelCreate _ _ => true
  | Call.endpointGet _ => true
  | Call.endpointCreate _ => true
  | Call.pipelineComponentCreate => true
  | Call.deploymentCreate _ _ => true
  | Call.endpointUpdate _ => true
  | _ => false

/-- Remote calls from the data lookup onwards (everything at or after
line 69). -/
def isDataOrLaterCall : Call → Bool
  | Call.dataGet _ _ => true
  | Call.jobCreate _ => true
  | Call.jobStream => true
  | Call.jobsList => true
  | c => isModelOrDeployCall c

end Register

namespace Score

/-- The processed-file list of a run is the input-file selection,
whichever branch the save step takes. -/
lemma scorerMain_processed (env : ScorerEnv) (i o mp : String) :
    (scorerMain env i o mp).processed = inputFiles env i := by
  unfold scorerMain
  cases h : ((inputFiles env i).map (scoreFile env mp)).isEmpty <;> simp [h]

/-- Assigning a column keeps `min` of the row and value counts
(positional `zip` pairing). -/
lemma setColumn_rows_length (df : DataFrame) (nm : String) (vals : List Int) :
    (setColumn df nm vals).rows.length = min df.rows.length vals.length := by
  unfold setColumn
  split <;> simp

/-- Assigning a fresh column appends it on the right. -/
lemma setColumn_cols_of_not_mem (df : DataFrame) (nm : String) (vals : List Int)
    (h : nm ∉ df.cols) : (setColumn df nm vals).cols = df.cols ++ [nm] := by
  unfold setColumn
  rw [if_neg h]

/-- Scoring a file whose prediction vector matches its row count keeps
the row count. -/
lemma scoreFile_rows_length (env : ScorerEnv) (mp f : String)
    (h : (env.loadModel mp (env.readCsv f)).length = (env.readCsv f).rows.length) :
    (scoreFile env mp f).rows.length = (env.readCsv f).rows.length := by
  simp [scoreFile, setColumn_rows_length, h]

/-- Flattening a map whose pieces all have length `m` gives `l.length * m`
elements. -/
lemma length_flatten_of_const {α : Type} (l : List α) (g : α → List (List Int)) (m : Nat)
    (h : ∀ x ∈ l, (g x).length = m) :
    ((l.map g).flatten).length = l.length * m := by
  induction l with
  | nil => simp
  | cons a tl ih =>
    simp only [List.map_cons, List.flatten_cons, List.length_append, List.length_cons]
    rw [h a (List.mem_cons_self a tl), ih (fun x hx => h x (List.mem_cons_of_mem a hx))]
    ring

/-- C7: for every input path that is a single file rather than a
directory, the batch scorer processes exactly that one file and no
other. -/
theorem scorer_single_file_input (env : ScorerEnv) (i o mp : String)
    (h : env.is_directory = false) :
    (scorerMain env i o mp).processed = [i] := by
  rw [scorerMain_processed]
  simp [inputFiles, h]

/-- Environment for the single-file witness: the input path is not a
directory. -/
def c7Env : ScorerEnv :=
  { is_directory := false
    listing := []
    loadModel := fun _ df => df.rows.map (fun _ => 0)
    readCsv := fun _ => ⟨["x"], [[1]]⟩ }

/-- C7 witness: a non-directory input `batch1.csv` is processed as the
sole file. -/
theorem scorer_single_file_input_witness :
    (scorerMain c7Env "batch1.csv" "out" "model").processed = ["batch1.csv"] :=
  scorer_single_file_input c7Env "batch1.csv" "out" "model" rfl

/-- C10: a non-directory input is processed as the sole input file
whatever its extension, while a directory input is filtered to names
ending in lowercase `.csv` exactly. -/
theorem scorer_extension_filter_asymmetry (env : ScorerEnv) (i o mp : String) :
    (env.is_directory = false → (scorerMain env i o mp).processed = [i]) ∧
    (env.is_directory = true →
      (scorerMain env i o mp).processed =
        (env.listing.filter (fun f => strEndsWith f ".csv")).map (joinPath i)) := by
  constructor
  · intro h
    rw [scorerMain_processed]
    simp [inputFiles, h]
  · intro h
    rw [scorerMain_processed]
    simp [inputFiles, h]

/-- Directory environment for the filter witness: one uppercase `.CSV`
name, one lowercase `.csv` name, one unrelated name. -/
def c10DirEnv : ScorerEnv :=
  { is_directory := true
    listing := ["A.CSV", "b.csv", "notes.txt"]
    loadModel := fun _ df => df.rows.map (fun _ => 0)
    readCsv := fun _ => ⟨["x"], [[1]]⟩ }

/-- Non-directory environment for the filter witness. -/
def c10FileEnv : ScorerEnv :=
  { is_directory := false
    listing := []
    loadModel := fun _ df => df.rows.map (fun _ => 0)
    readCsv := fun _ => ⟨["x"], [[1]]⟩ }

/-- C10 witness: `data.txt` is scored despite its extension when given
directly, while in a directory only the lowercase `b.csv` survives the
filter (`A.CSV` and `notes.txt` are skipped). -/
theorem scorer_extension_filter_asymmetry_witness :
    (scorerMain c10FileEnv "data.txt" "out" "m").processed = ["data.txt"] ∧
    (scorerMain c10DirEnv "in" "out" "m").processed =
      (["A.CSV", "b.csv", "notes.txt"].filter (fun f => strEndsWith f ".csv")).map
        (joinPath "in") :=
  ⟨(scorer_extension_filter_asymmetry c10FileEnv "data.txt" "out" "m").1 rfl,
   (scorer_extension_filter_asymmetry c10DirEnv "in" "out" "m").2 rfl⟩

/-- C4: a directory with zero `.csv` entries makes the scorer warn,
write no output file and create no output directory. -/
theorem scorer_warns_on_no_csv (env : ScorerEnv) (i o mp : String)
    (hdir : env.is_directory = true)
    (hempty : env.listing.filter (fun f => strEndsWith f ".csv") = []) :
    (scorerMain env i o mp).warnedNoResults = true ∧
    (scorerMain env i o mp).outputFiles = [] ∧
    (scorerMain env i o mp).madeDirs = [] := by
  have hfiles : inputFiles env i = [] := by
    simp [inputFiles, hdir, hempty]
  simp [scorerMain, hfiles]

/-- Directory with no lowercase-`.csv` entries (one of them an
uppercase `.CSV`). -/
def c4Env : ScorerEnv :=
  { is_directory := true
    listing := ["notes.txt", "DATA.CSV"]
    loadModel := fun _ df => df.rows.map (fun _ => 0)
    readCsv := fun _ => ⟨["x"], [[1]]⟩ }

/-- C4 witness: the empty-match directory produces the warning and no
filesystem writes. -/
theorem scorer_warns_on_no_csv_witness :
    (scorerMain c4Env "in" "out" "m").warnedNoResults = true ∧
    (scorerMain c4Env "in" "out" "m").outputFiles = [] ∧
    (scorerMain c4Env "in" "out" "m").madeDirs = [] :=
  scorer_warns_on_no_csv c4Env "in" "out" "m" rfl (by decide)

/-- C9: whenever any input file is selected, the scorer creates the
output path as a directory and writes the single combined file under the
fixed name `scored_results.csv` inside it. -/
theorem scorer_output_directory_and_name (env : ScorerEnv) (i o mp : String)
    (h : inputFiles env i ≠ []) :
    (scorerMain env i o mp).madeDirs = [o] ∧
    (scorerMain env i o mp).outputFiles =
      [(joinPath o "scored_results.csv", scoredOutput env i mp)] := by
  have hne : ((inputFiles env i).map (scoreFile env mp)).isEmpty = false := by
    cases hf : inputFiles env i with
    | nil => exact absurd hf h
    | cons a tl => simp [hf]
  simp [scorerMain, scoredOutput, hne]

/-- Single-file environment for the output-location witness. -/
def c9Env : ScorerEnv :=
  { is_directory := false
    listing := []
    loadModel := fun _ df => df.rows.map (fun _ => 0)
    readCsv := fun _ => ⟨["x"], [[1]]⟩ }

/-- C9 witness: scoring one file creates `out` and writes
`out/scored_results.csv`. -/
theorem scorer_output_directory_and_name_witness :
    (scorerMain c9Env "a.csv" "out" "m").madeDirs = ["out"] ∧
    (scorerMain c9Env "a.csv" "out" "m").outputFiles =
      [(joinPath "out" "scored_results.csv", scoredOutput c9Env "a.csv" "m")] :=
  scorer_output_directory_and_name c9Env "a.csv" "out" "m" (by decide)

/-- Directory whose listing has no `.csv` entry at all. -/
def c1CexEnv : ScorerEnv :=
  { is_directory := true
    listing := ["readme.txt"]
    loadModel := fun _ _ => []
    readCsv := fun _ => ⟨["x"], []⟩ }

/-- C1 counterexample: a directory input with N = 0 files ending in
`.csv` yields zero output files, not exactly one, so the claim fails at
N = 0 (the scorer warns instead; see the zero-input behaviour). -/
theorem scorer_zero_csv_claim_cex :
    c1CexEnv.is_directory = true ∧
    (c1CexEnv.listing.filter (fun f => strEndsWith f ".csv")).length = 0 ∧
    ¬ (scorerMain c1CexEnv "in" "out" "m").outputFiles.length = 1 := by
  decide

/-- C1 (amended with N ≥ 1): a directory holding N ≥ 1 files ending in
`.csv`, each read as a frame of M rows with matching prediction vectors
and a shared schema `C` free of a `prediction` column, produces exactly
one output file, with N·M rows, the per-file frames concatenated in
listing order, and one `prediction` column appended. -/
theorem scorer_batch_output_shape (env : ScorerEnv) (i o mp : String)
    (N M : Nat) (C : List String)
    (hdir : env.is_directory = true)
    (hN : (env.listing.filter (fun f => strEndsWith f ".csv")).length = N)
    (hNpos : 0 < N)
    (hM : ∀ f ∈ inputFiles env i, (env.readCsv f).rows.length = M)
    (hpred : ∀ f ∈ inputFiles env i,
      (env.loadModel mp (env.readCsv f)).length = (env.readCsv f).rows.length)
    (hC : ∀ f ∈ inputFiles env i, (env.readCsv f).cols = C)
    (hnp : "prediction" ∉ C) :
    (scorerMain env i o mp).outputFiles =
      [(joinPath o "scored_results.csv", scoredOutput env i mp)] ∧
    (scoredOutput env i mp).rows.length = N * M ∧
    (scoredOutput env i mp).rows =
      ((inputFiles env i).map (fun f => (scoreFile env mp f).rows)).flatten ∧
    (scoredOutput env i mp).cols = C ++ ["prediction"] ∧
    (scorerMain env i o mp).warnedNoResults = false := by
  have hlen : (inputFiles env i).length = N := by
    simp [inputFiles, hdir, hN]
  have hne : inputFiles env i ≠ [] := by
    intro hz
    rw [hz] at hlen
    simp at hlen
    omega
  have hisEmpty : ((inputFiles env i).map (scoreFile env mp)).isEmpty = false := by
    cases hf : inputFiles env i with
    | nil => exact absurd hf hne
    | cons a tl => simp [hf]
  have hrows : ∀ f ∈ inputFiles env i, (scoreFile env mp f).rows.length = M := by
    intro f hf
    rw [scoreFile_rows_length env mp f (hpred f hf), hM f hf]
  have hrowseq : (scoredOutput env i mp).rows =
      ((inputFiles env i).map (fun f => (scoreFile env mp f).rows)).flatten := by
    simp [scoredOutput, concatFrames, List.map_map]
    rfl
  have hlen2 : (scoredOutput env i mp).rows.length = N * M := by
    rw [hrowseq, length_flatten_of_const _ _ M hrows, hlen]
  obtain ⟨f0, tl, hf⟩ : ∃ f0 tl, inputFiles env i = f0 :: tl := by
    cases hc : inputFiles env i with
    | nil => exact absurd hc hne
    | cons a b => exact ⟨a, b, rfl⟩
  have hf0 : f0 ∈ inputFiles env i := by
    rw [hf]
    exact List.mem_cons_self _ _
  have hcols0 : (scoreFile env mp f0).cols = C ++ ["prediction"] := by
    have hnp0 : "prediction" ∉ (env.readCsv f0).cols := by
      rw [hC f0 hf0]
      exact hnp
    simp only [scoreFile]
    rw [setColumn_cols_of_not_mem _ _ _ hnp0, hC f0 hf0]
  have hcols : (scoredOutput env i mp).cols = C ++ ["prediction"] := by
    simp [scoredOutput, concatFrames, hf, hcols0]
  refine ⟨?_, hlen2, hrowseq, hcols, ?_⟩
  · simp [scorerMain, scoredOutput, hisEmpty]
  · simp [scorerMain, hisEmpty]

/-- Directory of two CSV files, each reading as three rows of one
column, with a matching three-element prediction vector. -/
def c1Env : ScorerEnv :=
  { is_directory := true
    listing := ["a.csv", "b.csv"]
    loadModel := fun _ _ => [7, 8, 9]
    readCsv := fun _ => ⟨["x"], [[1], [2], [3]]⟩ }

/-- C1 witness: N = 2 files of M = 3 rows produce one output of 6 rows
with the `prediction` column appended. -/
theorem scorer_batch_output_shape_witness :
    (scorerMain c1Env "in" "out" "m").outputFiles =
      [(joinPath "out" "scored_results.csv", scoredOutput c1Env "in" "m")] ∧
    (scoredOutput c1Env "in" "m").rows.length = 2 * 3 ∧
    (scoredOutput c1Env "in" "m").rows =
      ((inputFiles c1Env "in").map (fun f => (scoreFile c1Env "m" f).rows)).flatten ∧
    (scoredOutput c1Env "in" "m").cols = ["x"] ++ ["prediction"] ∧
    (scorerMain c1Env "in" "out" "m").warnedNoResults = false :=
  scorer_batch_output_shape c1Env "in" "out" "m" 2 3 ["x"] rfl (by decide) (by decide)
    (by decide) (by decide) (by decide) (by decide)

end Score

namespace Register

/-- C2: each get-or-create helper performs exactly one create call when
the remote get raises, and none when the get succeeds — for environments
(by name/label) and components (by name and version) alike. -/
theorem registrar_get_or_create_counts (w : World) (name dp yaml : String) :
    ((register_environment w name dp []).1.countP isCreateCall
      = if w.envGetOk then 0 else 1) ∧
    ((register_component w yaml []).1.countP isCreateCall
      = if w.compGetOk (w.loadComponent yaml).name (w.loadComponent yaml).version
        then 0 else 1) := by
  constructor
  · cases h : w.envGetOk <;>
      simp [register_environment, M.bind, M.pure, emit, h, isCreateCall]
  · cases h : w.compGetOk (w.loadComponent yaml).name (w.loadComponent yaml).version <;>
      simp [register_component, M.bind, M.pure, emit, h, isCreateCall]

/-- C3: when the streamed training job's status is not `Completed`, the
registrar prints the failure, returns normally, and never reaches model
registration or any endpoint/deployment call. -/
theorem registrar_halts_on_failed_training (cfg : Config) (w : World)
    (s rg ws cl e d : String)
    (h1 : cfg "subscription_id" = some s)
    (h2 : cfg "resource_group" = some rg)
    (h3 : cfg "workspace_name" = some ws)
    (h4 : cfg "cluster" = some cl)
    (h5 : cfg "experiment" = some e)
    (h6 : cfg "datasource_name" = some d)
    (hstat : w.jobStatus ≠ "Completed") :
    (main cfg w []).2 = Except.ok () ∧
    Call.printTrainingFailed w.jobStatus ∈ (main cfg w []).1 ∧
    (main cfg w []).1.countP isModelOrDeployCall = 0 := by
  cases hEnv : w.envGetOk <;>
    cases hTr : w.compGetOk (w.loadComponent "train.yaml").name
      (w.loadComponent "train.yaml").version <;>
    cases hSc : w.compGetOk (w.loadComponent "score.yaml").name
      (w.loadComponent "score.yaml").version <;>
    simp [main, get_ml_client, register_environment, register_component, getKeyM,
      emit, M.bind, M.pure, h1, h2, h3, h4, h5, h6, hstat, hEnv, hTr, hSc,
      isModelOrDeployCall]

/-- Full configuration used by the failed-training witness. -/
def c3Cfg : Config := fun k =>
  if k = "subscription_id" then some "sub"
  else if k = "resource_group" then some "rg"
  else if k = "workspace_name" then some "ws"
  else if k = "cluster" then some "cpu-cluster"
  else if k = "experiment" then some "exp"
  else if k = "datasource_name" then some "sales"
  else none

/-- World in which the training job ends `Failed`. -/
def c3World : World :=
  { envGetOk := true
    envGot := ⟨"iGuard-env", "", "Dockerfile", "1"⟩
    envCreated := fun x => x
    loadComponent := fun y => ⟨y, "1"⟩
    compGetOk := fun _ _ => false
    compGot := fun n v => ⟨n, v⟩
    compCreated := fun c => c
    dataId := "d1"
    jobStatus := "Failed"
    childJobs := []
    endpointGetOk := true }

/-- C3 witness: with a `Failed` training job, the run ends normally with
the failure printed and zero model/endpoint/deployment calls. -/
theorem registrar_halts_on_failed_training_witness :
    c3World.jobStatus ≠ "Completed" ∧
    ((main c3Cfg c3World []).2 = Except.ok () ∧
     Call.printTrainingFailed c3World.jobStatus ∈ (main c3Cfg c3World []).1 ∧
     (main c3Cfg c3World []).1.countP isModelOrDeployCall = 0) :=
  ⟨by decide,
   registrar_halts_on_failed_training c3Cfg c3World "sub" "rg" "ws" "cpu-cluster"
     "exp" "sales" (by decide) (by decide) (by decide) (by decide) (by decide)
     (by decide) (by decide)⟩

/-- C8: a completed training pipeline with zero child jobs makes
`child_jobs[0]` raise an unhandled `IndexError`, so the run aborts after
the child-job listing and before any model registration or
endpoint/deployment call. -/
theorem registrar_empty_child_jobs_index_error (cfg : Config) (w : World)
    (s rg ws cl e d : String)
    (h1 : cfg "subscription_id" = some s)
    (h2 : cfg "resource_group" = some rg)
    (h3 : cfg "workspace_name" = some ws)
    (h4 : cfg "cluster" = some cl)
    (h5 : cfg "experiment" = some e)
    (h6 : cfg "datasource_name" = some d)
    (hstat : w.jobStatus = "Completed")
    (hchild : w.childJobs = []) :
    (main cfg w []).2 = Except.error PyError.indexError ∧
    Call.jobsList ∈ (main cfg w []).1 ∧
    (main cfg w []).1.countP isModelOrDeployCall = 0 := by
  cases hEnv : w.envGetOk <;>
    cases hTr : w.compGetOk (w.loadComponent "train.yaml").name
      (w.loadComponent "train.yaml").version <;>
    cases hSc : w.compGetOk (w.loadComponent "score.yaml").name
      (w.loadComponent "score.yaml").version <;>
    simp [main, get_ml_client, register_environment, register_component, getKeyM,
      emit, M.bind, M.pure, liftExcept, selectChild, h1, h2, h3, h4, h5, h6, hstat,
      hchild, hEnv, hTr, hSc, isModelOrDeployCall]

/-- World with a completed training job but an empty child-job list. -/
def c8World : World :=
  { envGetOk := true
    envGot := ⟨"iGuard-env", "", "Dockerfile", "1"⟩
    envCreated := fun x => x
    loadComponent := fun y => ⟨y, "1"⟩
    compGetOk := fun _ _ => true
    compGot := fun n v => ⟨n, v⟩
    compCreated := fun c => c
    dataId := "d1"
    jobStatus := "Completed"
    childJobs := []
    endpointGetOk := true }

/-- Full configuration used by the empty-child-jobs witness. -/
def c8Cfg : Config := fun k =>
  if k = "subscription_id" then some "sub"
  else if k = "resource_group" then some "rg"
  else if k = "workspace_name" then some "ws"
  else if k = "cluster" then some "cpu-cluster"
  else if k = "experiment" then some "exp"
  else if k = "datasource_name" then some "sales"
  else none

/-- C8 witness: the empty-child-jobs run raises `IndexError` after the
listing call and performs no model registration. -/
theorem registrar_empty_child_jobs_index_error_witness :
    (main c8Cfg c8World []).2 = Except.error PyError.indexError ∧
    Call.jobsList ∈ (main c8Cfg c8World []).1 ∧
    (main c8Cfg c8World []).1.countP isModelOrDeployCall = 0 :=
  registrar_empty_child_jobs_index_error c8Cfg c8World "sub" "rg" "ws" "cpu-cluster"
    "exp" "sales" (by decide) (by decide) (by decide) (by decide) (by decide)
    (by decide) (by decide) (by decide)

/-- C6: after a completed training pipeline the registrar selects the
child job whose display name contains `train_job` case-insensitively,
falls back to the first listed child job when none matches, and builds
the registered model's path from the selected job's name. -/
theorem registrar_child_job_selection (cfg : Config) (w : World)
    (s rg ws cl e d : String) (sel : JobInfo)
    (h1 : cfg "subscription_id" = some s)
    (h2 : cfg "resource_group" = some rg)
    (h3 : cfg "workspace_name" = some ws)
    (h4 : cfg "cluster" = some cl)
    (h5 : cfg "experiment" = some e)
    (h6 : cfg "datasource_name" = some d)
    (hstat : w.jobStatus = "Completed")
    (hsel : selectChild w.childJobs = Except.ok sel) :
    ((∃ x ∈ w.childJobs, matchesTrainJob x = true) →
      matchesTrainJob sel = true ∧ sel ∈ w.childJobs) ∧
    ((∀ x ∈ w.childJobs, matchesTrainJob x = false) →
      w.childJobs.head? = some sel) ∧
    Call.modelCreate (modelPathOf sel.name) (e ++ "-model") ∈ (main cfg w []).1 := by
  refine ⟨?_, ?_, ?_⟩
  · rintro ⟨x, hx, hmx⟩
    cases hc : w.childJobs with
    | nil =>
      rw [hc] at hx
      exact absurd hx (List.not_mem_nil x)
    | cons j0 tl =>
      rw [hc] at hsel
      simp only [selectChild, Except.ok.injEq] at hsel
      have hsome : ((j0 :: tl).find? matchesTrainJob).isSome := by
        rw [List.find?_isSome]
        exact ⟨x, hc ▸ hx, hmx⟩
      obtain ⟨m, hm⟩ := Option.isSome_iff_exists.mp hsome
      rw [hm] at hsel
      simp only [Option.getD_some] at hsel
      subst hsel
      exact ⟨List.find?_some hm, List.mem_of_find?_eq_some hm⟩
  · intro hall
    cases hc : w.childJobs with
    | nil =>
      rw [hc] at hsel
      exact absurd hsel (by simp [selectChild])
    | cons j0 tl =>
      rw [hc] at hsel
      simp only [selectChild, Except.ok.injEq] at hsel
      have hnone : (j0 :: tl).find? matchesTrainJob = none := by
        rw [List.find?_eq_none]
        intro x hx
        simp [hall x (hc ▸ hx)]
      rw [hnone] at hsel
      simp only [Option.getD_none] at hsel
      subst hsel
      simp
  · cases hEnv : w.envGetOk <;>
      cases hTr : w.compGetOk (w.loadComponent "train.yaml").name
        (w.loadComponent "train.yaml").version <;>
      cases hSc : w.compGetOk (w.loadComponent "score.yaml").name
        (w.loadComponent "score.yaml").version <;>
      cases hEp : w.endpointGetOk <;>
      simp [main, get_ml_client, register_environment, register_component, getKeyM,
        emit, M.bind, M.pure, liftExcept, h1, h2, h3, h4, h5, h6, hstat, hsel,
        hEnv, hTr, hSc, hEp]

/-- Full configuration used by the child-job-selection witness. -/
def c6Cfg : Config := fun k =>
  if k = "subscription_id" then some "sub"
  else if k = "resource_group" then some "rg"
  else if k = "workspace_name" then some "ws"
  else if k = "cluster" then some "cpu-cluster"
  else if k = "experiment" then some "exp"
  else if k = "datasource_name" then some "sales"
  else none

/-- World whose completed pipeline lists two child jobs; only the second
display name contains `train_job` (in mixed case). -/
def c6World : World :=
  { envGetOk := true
    envGot := ⟨"iGuard-env", "", "Dockerfile", "1"⟩
    envCreated := fun x => x
    loadComponent := fun y => ⟨y, "1"⟩
    compGetOk := fun _ _ => true
    compGot := fun n v => ⟨n, v⟩
    compCreated := fun c => c
    dataId := "d1"
    jobStatus := "Completed"
    childJobs := [⟨"jid1", "Prep_Step"⟩, ⟨"jid2", "Final_TRAIN_JOB"⟩]
    endpointGetOk := true }

/-- C6 witness: the mixed-case `Final_TRAIN_JOB` child is selected and
the model path is built from its job name `jid2`. -/
theorem registrar_child_job_selection_witness :
    Call.modelCreate (modelPathOf "jid2") ("exp" ++ "-model") ∈
      (main c6Cfg c6World []).1 :=
  (registrar_child_job_selection c6Cfg c6World "sub" "rg" "ws" "cpu-cluster" "exp"
    "sales" ⟨"jid2", "Final_TRAIN_JOB"⟩ (by decide) (by decide) (by decide)
    (by decide) (by decide) (by decide) (by decide) (by decide)).2.2

/-- C5 (amended): a missing `subscription_id`, `resource_group`,
`workspace_name`, `cluster` or `experiment` (checked in that order)
raises `KeyError` with an empty call trace, before any remote call; a
missing `datasource_name`, with the other five present, raises
`KeyError` only after the environment and component registrations have
been attempted, though before the data lookup and every later remote
call. -/
theorem registrar_keyerror_order (cfg : Config) (w : World) :
    (cfg "subscription_id" = none →
      main cfg w [] = ([], Except.error (PyError.keyError "subscription_id"))) ∧
    (∀ a, cfg "subscription_id" = some a → cfg "resource_group" = none →
      main cfg w [] = ([], Except.error (PyError.keyError "resource_group"))) ∧
    (∀ a b, cfg "subscription_id" = some a → cfg "resource_group" = some b →
      cfg "workspace_name" = none →
      main cfg w [] = ([], Except.error (PyError.keyError "workspace_name"))) ∧
    (∀ a b c, cfg "subscription_id" = some a → cfg "resource_group" = some b →
      cfg "workspace_name" = some c → cfg "cluster" = none →
      main cfg w [] = ([], Except.error (PyError.keyError "cluster"))) ∧
    (∀ a b c dd, cfg "subscription_id" = some a → cfg "resource_group" = some b →
      cfg "workspace_name" = some c → cfg "cluster" = some dd →
      cfg "experiment" = none →
      main cfg w [] = ([], Except.error (PyError.keyError "experiment"))) ∧
    (∀ a b c dd ee, cfg "subscription_id" = some a → cfg "resource_group" = some b →
      cfg "workspace_name" = some c → cfg "cluster" = some dd →
      cfg "experiment" = some ee → cfg "datasource_name" = none →
      (main cfg w []).2 = Except.error (PyError.keyError "datasource_name") ∧
      Call.envGet "iGuard-env" "latest" ∈ (main cfg w []).1 ∧
      (main cfg w []).1.countP isDataOrLaterCall = 0) := by
  refine ⟨?_, ?_, ?_, ?_, ?_, ?_⟩
  · intro h
    simp [main, get_ml_client, getKeyM, M.bind, h]
  · intro a ha h
    simp [main, get_ml_client, getKeyM, M.bind, ha, h]
  · intro a b ha hb h
    simp [main, get_ml_client, getKeyM, M.bind, M.pure, ha, hb, h]
  · intro a b c ha hb hc h
    simp [main, get_ml_client, getKeyM, M.bind, M.pure, ha, hb, hc, h]
  · intro a b c dd ha hb hc hd h
    simp [main, get_ml_client, getKeyM, M.bind, M.pure, ha, hb, hc, hd, h]
  · intro a b c dd ee ha hb hc hd he h
    cases hEnv : w.envGetOk <;>
      cases hTr : w.compGetOk (w.loadComponent "train.yaml").name
        (w.loadComponent "train.yaml").version <;>
      cases hSc : w.compGetOk (w.loadComponent "score.yaml").name
        (w.loadComponent "score.yaml").version <;>
      simp [main, get_ml_client, register_environment, register_component, getKeyM,
        emit, M.bind, M.pure, ha, hb, hc, hd, he, h, hEnv, hTr, hSc,
        isDataOrLaterCall, isModelOrDeployCall]

/-- Configuration missing only `datasource_name`. -/
def c5Cfg : Config := fun k =>
  if k = "subscription_id" then some "sub"
  else if k = "resource_group" then some "rg"
  else if k = "workspace_name" then some "ws"
  else if k = "cluster" then some "cpu-cluster"
  else if k = "experiment" then some "exp"
  else none

/-- World for the missing-key runs (its training outcome is never
reached). -/
def c5World : World :=
  { envGetOk := false
    envGot := ⟨"iGuard-env", "", "Dockerfile", "1"⟩
    envCreated := fun x => x
    loadComponent := fun y => ⟨y, "1"⟩
    compGetOk := fun _ _ => false
    compGot := fun n v => ⟨n, v⟩
    compCreated := fun c => c
    dataId := "d1"
    jobStatus := "Completed"
    childJobs := []
    endpointGetOk := true }

/-- Configuration missing every key, for the first-key witness run. -/
def c5EmptyCfg : Config := fun _ => none

/-- C5 counterexample: with only `datasource_name` missing, the run does
raise a `KeyError`, but the environment get — a remote call — has
already been attempted, so the failure is not before every remote
call. -/
theorem registrar_missing_datasource_cex :
    c5Cfg "datasource_name" = none ∧
    (main c5Cfg c5World []).2 = Except.error (PyError.keyError "datasource_name") ∧
    Call.envGet "iGuard-env" "latest" ∈ (main c5Cfg c5World []).1 := by
  decide

/-- C5 witness: a configuration missing `subscription_id` fails with an
empty trace, and one missing only `datasource_name` fails after the
registration calls but before the data lookup. -/
theorem registrar_keyerror_order_witness :
    main c5EmptyCfg c5World [] =
      ([], Except.error (PyError.keyError "subscription_id")) ∧
    ((main c5Cfg c5World []).2 = Except.error (PyError.keyError "datasource_name") ∧
     Call.envGet "iGuard-env" "latest" ∈ (main c5Cfg c5World []).1 ∧
     (main c5Cfg c5World []).1.countP isDataOrLaterCall = 0) :=
  ⟨(registrar_keyerror_order c5EmptyCfg c5World).1 (by decide),
   (registrar_keyerror_order c5Cfg c5World).2.2.2.2.2 "sub" "rg" "ws" "cpu-cluster"
     "exp" (by decide) (by decide) (by decide) (by decide) (by decide) (by decide)⟩

end Register

